import Mathlib

/-!
Verification development for the cvprac CVP client (cvprac/cvp_client.py).

The development shallowly embeds the session/retry/failover engine of
CvpClient together with the streaming JSON response decoder.  Pure helper
functions of the source are translated to Lean functions; the stateful
client is translated to explicit state passing over a `St` record, with
the external world (the HTTP transport and the login exchange) supplied
as an oracle `Env` consumed through per-call counters.
-/

set_option maxRecDepth 4000

/-- Json values as produced by Python's `json` module: `None`, `bool`,
integer numbers, strings, lists and (insertion-ordered) dicts.  The
source only ever manipulates decoded JSON through dict key lookup,
membership and list traversal, all of which this tree models.  Floating
point numbers are not modelled (no claim exercises them). -/
inductive Json where
  | null : Json
  | bool (b : Bool) : Json
  | num (n : Int) : Json
  | str (s : String) : Json
  | arr (xs : List Json) : Json
  | obj (kvs : List (String × Json)) : Json

/-- Test whether a value is the JSON null. -/
def Json.isNull : Json → Bool
  | .null => true
  | _ => false

/-- Python `isinstance(v, (dict, list))`, the guard `_finditem` uses before
recursing. -/
def Json.isContainer : Json → Bool
  | .arr _ => true
  | .obj _ => true
  | _ => false

/-- Python truthiness of a decoded JSON value, as used by
`if err_code_val:` in `_is_good_response`. -/
def Json.truthy : Json → Bool
  | .null => false
  | .bool b => b
  | .num n => n != 0
  | .str s => s != ""
  | .arr xs => !xs.isEmpty
  | .obj kvs => !kvs.isEmpty

/-- Python `str()` of a decoded JSON scalar as used when error messages are
assembled with `%s` formatting.  Containers are given a fixed rendering;
the claims only exercise scalar messages. -/
def jsonToStr : Json → String
  | .null => "None"
  | .bool b => if b then "True" else "False"
  | .num n => toString n
  | .str s => s
  | .arr _ => "[...]"
  | .obj _ => "{...}"

/-- Boolean test that the first character list is a prefix of the second. -/
def listPre : List Char → List Char → Bool
  | [], _ => true
  | _ :: _, [] => false
  | a :: as, b :: bs => a == b && listPre as bs

/-- Boolean test that `p` occurs as a contiguous sublist of the second
argument. -/
def listSub (p : List Char) : List Char → Bool
  | [] => listPre p []
  | c :: rest => listPre p (c :: rest) || listSub p rest

/-- Python's `needle in haystack` on strings (substring containment). -/
def strIn (p s : String) : Bool := listSub p.data s.data

/-- Sublist containment is preserved by prepending text. -/
theorem listSub_append (p t s : List Char) (h : listSub p s = true) :
    listSub p (t ++ s) = true := by
  induction t with
  | nil => simpa using h
  | cons c cs ih =>
    simp only [List.cons_append, listSub, Bool.or_eq_true]
    exact Or.inr ih

/-- Substring containment is preserved by prepending text. -/
theorem strIn_append (p t s : String) (h : strIn p s = true) :
    strIn p (t ++ s) = true := by
  unfold strIn at h ⊢
  rw [String.data_append]
  exact listSub_append _ _ _ h

/-- Whitespace characters skipped by Python's JSON scanner. -/
def isJsonWs (c : Char) : Bool :=
  c == ' ' || c == '\t' || c == '\n' || c == '\r'

/-- Drop leading JSON whitespace. -/
def skipWs : List Char → List Char
  | [] => []
  | c :: cs => if isJsonWs c then skipWs cs else c :: cs

/-- Scan a JSON string body (the opening quote already consumed), returning
the decoded string and the remaining input.  Models `py_scanstring`; of the
escape sequences only the ones the concrete inputs could use are mapped
and no input in this development contains any escape. -/
def scanString : List Char → String → Option (String × List Char)
  | [], _ => none
  | c :: cs, acc =>
    if c == '"' then some (acc, cs)
    else if c == '\\' then
      match cs with
      | [] => none
      | e :: cs2 =>
        let ec := if e == 'n' then '\n' else if e == 't' then '\t'
                  else if e == 'r' then '\r' else e
        scanString cs2 (acc.push ec)
    else scanString cs (acc.push c)

/-- Accumulate a run of decimal digits. -/
def scanDigitsAux : List Char → Nat → Nat × List Char
  | [], acc => (acc, [])
  | c :: cs, acc =>
    if c.isDigit then scanDigitsAux cs (acc * 10 + (c.toNat - 48))
    else (acc, c :: cs)

/-- Scan a JSON integer numeral (optional minus sign, then digits).  Models
the integer part of Python's `NUMBER_RE`; fractions, exponents and the
leading-zero restriction are not modelled (no concrete input here uses
them). -/
def scanNumber : List Char → Option (Json × List Char)
  | [] => none
  | '-' :: cs =>
    match cs with
    | c :: _ =>
      if c.isDigit then
        let p := scanDigitsAux cs 0
        some (.num (-(p.1 : Int)), p.2)
      else none
    | [] => none
  | c :: cs =>
    if c.isDigit then
      let p := scanDigitsAux (c :: cs) 0
      some (.num (p.1 : Int), p.2)
    else none

mutual

/-- Scan exactly one JSON value starting at the head of the input (no
leading whitespace is skipped, exactly as Python's `scan_once`), returning
the value and the remaining input.  Fuel bounds the recursion depth and is
always supplied large enough for the input length. -/
def scanValue : Nat → List Char → Option (Json × List Char)
  | 0, _ => none
  | fuel + 1, cs =>
    match cs with
    | '"' :: rest =>
      match scanString rest "" with
      | some p => some (.str p.1, p.2)
      | none => none
    | '\x7b' :: rest =>
      match skipWs rest with
      | '\x7d' :: r2 => some (.obj [], r2)
      | r => scanMembers fuel r []
    | '[' :: rest =>
      match skipWs rest with
      | ']' :: r2 => some (.arr [], r2)
      | r => scanElems fuel r []
    | 'n' :: 'u' :: 'l' :: 'l' :: rest => some (.null, rest)
    | 't' :: 'r' :: 'u' :: 'e' :: rest => some (.bool true, rest)
    | 'f' :: 'a' :: 'l' :: 's' :: 'e' :: rest => some (.bool false, rest)
    | other => scanNumber other

/-- Scan the members of a JSON object after the opening brace (whitespace
already skipped, object known not to be empty). -/
def scanMembers : Nat → List Char → List (String × Json) →
    Option (Json × List Char)
  | 0, _, _ => none
  | fuel + 1, cs, acc =>
    match cs with
    | '"' :: rest =>
      match scanString rest "" with
      | none => none
      | some (key, r1) =>
        match skipWs r1 with
        | ':' :: r2 =>
          match scanValue fuel (skipWs r2) with
          | none => none
          | some (v, r3) =>
            match skipWs r3 with
            | ',' :: r4 => scanMembers fuel (skipWs r4) (acc ++ [(key, v)])
            | '\x7d' :: r4 => some (.obj (acc ++ [(key, v)]), r4)
            | _ => none
        | _ => none
    | _ => none

/-- Scan the elements of a JSON array after the opening bracket (whitespace
already skipped, array known not to be empty). -/
def scanElems : Nat → List Char → List Json → Option (Json × List Char)
  | 0, _, _ => none
  | fuel + 1, cs, acc =>
    match scanValue fuel cs with
    | none => none
    | some (v, r1) =>
      match skipWs r1 with
      | ',' :: r2 => scanElems fuel (skipWs r2) (acc ++ [v])
      | ']' :: r2 => some (.arr (acc ++ [v]), r2)
      | _ => none

end

/-- Python's `json.JSONDecoder.raw_decode(data, pos)`: decode one JSON
value starting exactly at index `pos` (leading whitespace is an error) and
return the value together with the index just past it; `none` models the
`ValueError` raised when no value starts at `pos`. -/
def raw_decode (data : String) (pos : Nat) : Option (Json × Nat) :=
  let cs := data.data.drop pos
  match scanValue (cs.length + 1) cs with
  | some (v, rest) => some (v, pos + (cs.length - rest.length))
  | none => none

/-- Loop body of `json_decoder` (cvp_client.py lines 996-1002): repeatedly
`raw_decode` at the current position, then advance one character past the
decoded value, until a decode fails. -/
def decodeLoop (data : String) : Nat → Nat → List Json
  | 0, _ => []
  | fuel + 1, pos =>
    match raw_decode data pos with
    | some (v, p) => v :: decodeLoop data fuel (p + 1)
    | none => []

/-- Values collected by the `json_decoder` loop for a given body. -/
def decodedList (data : String) : List Json :=
  decodeLoop data (data.length + 1) 0

/-- The module-level `json_decoder` of cvp_client.py: collect consecutive
JSON values; a single collected value is returned unwrapped, otherwise the
(possibly empty) list is returned. -/
def json_decoder (data : String) : Json :=
  match decodedList data with
  | [v] => v
  | vs => .arr vs

/-- Outcome of Python's `json.loads` (what `response.json()` performs):
a decoded value, the JSONDecodeError whose text starts with "Extra data"
(a complete value followed by trailing non-whitespace), or any other
JSONDecodeError carrying its message. -/
inductive LoadResult where
  | ok (v : Json)
  | extraData
  | failure (msg : String)

/-- Python's `json.loads`: skip leading whitespace, decode one value, then
require only whitespace to remain, reporting "Extra data" otherwise. -/
def loads (s : String) : LoadResult :=
  let cs := skipWs s.data
  match scanValue (cs.length + 1) cs with
  | none => .failure "Expecting value"
  | some (v, rest) =>
    if (skipWs rest).isEmpty then .ok v else .extraData

/-- Lookup of a key in a decoded JSON object (Python dict indexing; the
inputs in this development carry no duplicate keys). -/
def jlookup : List (String × Json) → String → Option Json
  | [], _ => none
  | (k, v) :: rest, key => if k == key then some v else jlookup rest key

mutual

/-- CvpClient._finditem: depth-first search for `key` in a nested
dict/list structure; a dict that carries the key returns its value (a
`None` value is indistinguishable from absence, exactly as in the source);
otherwise dict values and then list elements that are themselves dicts or
lists are searched in order and the first hit wins. -/
def finditem (key : String) : Json → Option Json
  | .obj kvs =>
    match jlookup kvs key with
    | some v => if v.isNull then none else some v
    | none => finditemVals key kvs
  | .arr xs => finditemElems key xs
  | _ => none

/-- Search the values of a dict in insertion order, recursing only into
dict or list values. -/
def finditemVals (key : String) : List (String × Json) → Option Json
  | [] => none
  | (_, v) :: rest =>
    if v.isContainer then
      match finditem key v with
      | some r => some r
      | none => finditemVals key rest
    else finditemVals key rest

/-- Search the elements of a list in order, recursing only into dict or
list elements. -/
def finditemElems (key : String) : List Json → Option Json
  | [] => none
  | v :: rest =>
    if v.isContainer then
      match finditem key v with
      | some r => some r
      | none => finditemElems key rest
    else finditemElems key rest

end

/-- Maximum number of times a request is retried against the same CVP
node (CvpClient.NUM_RETRY_REQUESTS). -/
def NUM_RETRY_REQUESTS : Nat := 3

/-- Typed errors of the client.  The first five embed the transport-level
exception classes caught from the requests library (ReadTimeout and
Timeout are represented by one constructor, caught together everywhere in
the source); the rest embed the cvprac error classes.  Each carries the
message Python's str() of the exception would show. -/
inductive CvpError where
  | connError (msg : String)
  | httpError (msg : String)
  | tooManyRedirects (msg : String)
  | timeoutErr (msg : String)
  | apiError (msg : String)
  | requestError (msg : String)
  | sessionLogOut (msg : String)
  | loginError (msg : String)
  | valueError (msg : String)
  | jsonError (msg : String)
deriving DecidableEq

/-- Modelled from the spec: the cvprac error classes live in
cvprac/cvp_client_errors.py, which is not under src/; per the spec's
ErrorAccumulator ("per-connect-attempt string log of (node, failure
reason) pairs") the rendering of an error is its reason message. -/
def errMsg : CvpError → String
  | .connError m => m
  | .httpError m => m
  | .tooManyRedirects m => m
  | .timeoutErr m => m
  | .apiError m => m
  | .requestError m => m
  | .sessionLogOut m => m
  | .loginError m => m
  | .valueError m => m
  | .jsonError m => m

/-- Raw HTTP response as the source consumes it: the `ok` flag, the status
reason text and the body text (`response.content` is empty or b'null'
exactly when `text` is "" or "null"). -/
structure Resp where
  ok : Bool
  reason : String
  text : String
deriving DecidableEq

/-- Outcome of one transport call (session.get/post/delete): one of the
exception classes the source catches, or a response object. -/
inductive TransportOutcome where
  | connFail (msg : String)
  | httpFail (msg : String)
  | redirectFail (msg : String)
  | timeoutFail (msg : String)
  | gotResp (r : Resp)
deriving DecidableEq

/-- External world: the result of the n-th transport call and of the n-th
login exchange, consumed through counters kept in the client state.  A
login result of `none` is success; `some e` is one of the exception kinds
`_reset_session` catches. -/
structure Env where
  transport : Nat → TransportOutcome
  login : Nat → Option CvpError

/-- Mutable state of a CvpClient instance: the fields of the source the
claims mention, plus a session generation counter (each
`requests.Session()` yields a fresh handle) and the two oracle counters.
`current_host` records the host the url prefixes point at (what the
regex on url_prefix in `_make_request` recovers). -/
structure St where
  session : Option Nat
  session_gen : Nat
  nodes : List String
  node_cnt : Nat
  pool_idx : Nat
  url_pref : String
  url_pref_short : String
  current_host : String
  last_used_node : String
  error_msg : String
  is_cvaas : Bool
  port : Option Nat
  tcnt : Nat
  lcnt : Nat
deriving DecidableEq

/-- Python `'x' in container` as used on decoded JSON values: key
membership for dicts, element membership for lists, substring for
strings.  Membership on a scalar raises TypeError in Python; it is
modelled as false and never exercised by a claim. -/
def containsKeyPy (v : Json) (key : String) : Bool :=
  match v with
  | .obj kvs => kvs.any (fun kv => kv.1 == key)
  | .arr xs => xs.any (fun x => match x with | .str s => s == key | _ => false)
  | .str s => strIn key s
  | _ => false

/-- Dict indexing `joutput[key]` with a null default (the source only
indexes keys whose presence it has checked). -/
def jget (v : Json) (key : String) : Json :=
  match v with
  | .obj kvs => (jlookup kvs key).getD .null
  | _ => .null

/-- Join the string renderings of an error list with newlines, as the
loop in `_is_good_response` builds `err_msg`. -/
def joinErrs : List Json → String
  | [] => ""
  | [e] => jsonToStr e
  | e :: rest => jsonToStr e ++ "\n" ++ joinErrs rest

/-- Error message assembled by `_is_good_response` when a truthy errorCode
was found: the errorMessage field if present, else the errors list joined
with newlines, else the bare errorCode. -/
def buildApiErrMsg (joutput : Json) : String :=
  if containsKeyPy joutput "errorMessage" then jsonToStr (jget joutput "errorMessage")
  else
    let error_list : List Json :=
      if containsKeyPy joutput "errors" then
        match jget joutput "errors" with
        | .arr xs => xs
        | v => [v]
      else [jget joutput "errorCode"]
    joinErrs error_list

/-- CvpClient._is_good_response: classify a response, returning the error
it raises, or none for success.  The order of checks follows the source:
non-OK status with 'Unauthorized' in the reason, then 'User is
unauthorized' in the body, then a generic CvpRequestError; on OK status,
the 'LOG OUT MESSAGE' sentinel, then a truthy errorCode found anywhere in
the decoded body. -/
def is_good_response (r : Resp) (pfx : String) : Option CvpError :=
  if !r.ok then
    if strIn "Unauthorized" r.reason then
      some (.apiError (pfx ++ (": Request Error: " ++ r.reason)))
    else if strIn "User is unauthorized" r.text then
      some (.apiError (pfx ++ ": Request Error: User is unauthorized"))
    else
      some (.requestError (pfx ++ (": Request Error: " ++ (r.reason ++ (" - " ++ r.text)))))
  else if strIn "LOG OUT MESSAGE" r.text then
    some (.sessionLogOut (pfx ++ ": Request Error: session logged out"))
  else
    let joutput := json_decoder r.text
    match finditem "errorCode" joutput with
    | some v =>
      if v.truthy then some (.apiError (pfx ++ (": Request Error: " ++ buildApiErrMsg joutput)))
      else none
    | none => none

/-- Full URL routing of `_make_request` (cvp_client.py lines 624-630):
paths already carrying '/api/' or '/cvpservice/' go to the short prefix,
CVaaS prepends '/cvpservice', everything else uses the '/web' prefix. -/
def computeFullUrl (st : St) (url : String) : String :=
  if strIn "/api/" url || strIn "/cvpservice/" url then st.url_pref_short ++ url
  else if st.is_cvaas then st.url_pref_short ++ ("/cvpservice" ++ url)
  else st.url_pref ++ url

/-- Diagnostic prefix `'%s: %s '` passed by `_send_request` to
`_is_good_response`. -/
def mkPfx (req_type full_url : String) : String :=
  req_type ++ (": " ++ (full_url ++ " "))

/-- Decode stage of `_make_request` (cvp_client.py lines 670-706), a pure
function of the winning full URL and the response body: empty or literal
"null" bodies yield `{data: []}`; a clean single-value parse is wrapped as
`{data: [value]}` when the URL is a /resources/ one and the value carries
a 'result' key, and returned unchanged otherwise; an 'Extra data' parse
failure falls back to `json_decoder` wrapped under 'data'; any other parse
failure is re-raised. -/
def handle_response (full_url text : String) : Except CvpError Json :=
  if text == "" || text == "null" then .ok (.obj [("data", .arr [])])
  else
    match loads text with
    | .ok v =>
      if !v.isNull && (containsKeyPy v "result" && strIn "/resources/" full_url) then
        .ok (.obj [("data", .arr [v])])
      else .ok v
    | .extraData => .ok (.obj [("data", json_decoder text)])
    | .failure m => .error (.jsonError m)

/-- CvpClient._reset_session: obtain a fresh transport handle (a new
session generation), run the login exchange for the currently selected
node, and on any caught failure return it with the session cleared.  Node
selection state is not touched. -/
def reset_session (env : Env) (st : St) : Option CvpError × St :=
  let st1 : St :=
    { st with session := some (st.session_gen + 1), session_gen := st.session_gen + 1 }
  match env.login st1.lcnt with
  | none => (none, { st1 with lcnt := st1.lcnt + 1 })
  | some e => (some e, { st1 with lcnt := st1.lcnt + 1, session := none })

/-- Loop of `_create_session` (cvp_client.py lines 364-372): for each of
`num_nodes` rounds, advance the node pool, point the url prefixes at the
selected host, and try `_reset_session`; stop at the first success, else
append '<host>: <reason>\n' to the error accumulator and continue. -/
def create_session_go (env : Env) : Nat → St → St
  | 0, st => st
  | n + 1, st =>
    let host := st.nodes.getD (st.pool_idx % st.node_cnt) ""
    let st1 : St :=
      { st with pool_idx := st.pool_idx + 1,
                url_pref := "https://" ++ (host ++ (":" ++ (toString (st.port.getD 443) ++ "/web"))),
                url_pref_short := "https://" ++ (host ++ (":" ++ toString (st.port.getD 443))),
                current_host := host }
    match reset_session env st1 with
    | (none, st2) => st2
    | (some e, st2) =>
      create_session_go env n
        { st2 with error_msg := st2.error_msg ++ (host ++ (": " ++ (errMsg e ++ "\n"))) }

/-- CvpClient._create_session: try every node when `all_nodes` is set,
else every node but the current one (when more than one exists), starting
from a fresh '\n' error accumulator. -/
def create_session (env : Env) (st : St) (all_nodes : Bool) : St :=
  let num_nodes := if !all_nodes && st.node_cnt > 1 then st.node_cnt - 1 else st.node_cnt
  create_session_go env num_nodes { st with error_msg := "\n" }

/-- CvpClient.connect restricted to the fields the claims mention: record
the node list, reset the pool cursor, create a session against all nodes
and raise CvpLoginError carrying the accumulated error text when none
could be established.  Credential bookkeeping, environment-variable node
masking and timeout storage are not modelled. -/
def connect (env : Env) (nodes : List String) (port : Option Nat) (cvaas : Bool) :
    Except CvpError St :=
  let st : St :=
    { session := none, session_gen := 0, nodes := nodes, node_cnt := nodes.length,
      pool_idx := 0, url_pref := "", url_pref_short := "", current_host := "",
      last_used_node := "", error_msg := "", is_cvaas := cvaas, port := port,
      tcnt := 0, lcnt := 0 }
  let st1 := create_session env st true
  if st1.session.isNone then .error (.loginError st1.error_msg) else .ok st1

/-- Loop of `_send_request` (cvp_client.py lines 756-845), counting down
the remaining same-node tries (`remaining = NUM_RETRY_REQUESTS - req_try`,
so `remaining = 1` is the final try).  One transport outcome is consumed
per iteration.  Network errors abort at once; a timeout retries the same
node unless this was the final try; a logged-out or unauthorized
classification resets the session and retries unless the final try or the
reset produced no session; any other CvpApiError and every
CvpRequestError propagate immediately.  A result of `.ok none` models the
unreachable fall-through of the Python for loop (returning None). -/
def send_request_go (env : Env) (req_type full_url : String) :
    Nat → St → Except CvpError (Option Resp) × St
  | 0, st => (.ok none, st)
  | remaining + 1, st =>
    let outcome := env.transport st.tcnt
    let st1 : St := { st with tcnt := st.tcnt + 1 }
    match outcome with
    | .connFail m => (.error (.connError m), st1)
    | .httpFail m => (.error (.httpError m), st1)
    | .redirectFail m => (.error (.tooManyRedirects m), st1)
    | .timeoutFail m =>
      if remaining == 0 then (.error (.timeoutErr m), st1)
      else send_request_go env req_type full_url remaining st1
    | .gotResp resp =>
      match is_good_response resp (mkPfx req_type full_url) with
      | none => (.ok (some resp), st1)
      | some (.sessionLogOut m) =>
        if remaining == 0 then (.error (.sessionLogOut m), st1)
        else
          let st2 := (reset_session env st1).2
          if st2.session.isNone then (.error (.sessionLogOut m), st2)
          else send_request_go env req_type full_url remaining st2
      | some (.apiError m) =>
        if strIn "Unauthorized" m || strIn "User is unauthorized" m then
          if remaining == 0 then (.error (.apiError m), st1)
          else
            let st2 := (reset_session env st1).2
            if st2.session.isNone then (.error (.apiError m), st2)
            else send_request_go env req_type full_url remaining st2
        else (.error (.apiError m), st1)
      | some e => (.error e, st1)

/-- CvpClient._send_request: up to NUM_RETRY_REQUESTS same-node tries. -/
def send_request (env : Env) (st : St) (req_type full_url : String) :
    Except CvpError (Option Resp) × St :=
  send_request_go env req_type full_url NUM_RETRY_REQUESTS st

/-- Node loop of `_make_request` (cvp_client.py lines 622-706), counting
down the remaining node-level attempts from `node_cnt`
(`remaining = 1` means this is the final node).  An unauthorized
CvpApiError or any transport/timeout/logged-out error from
`_send_request` triggers failover — `_create_session` over the other
nodes — unless this was the final node or no session could be
re-established, in which case the last error is raised; a CvpApiError
without an unauthorized marker is raised immediately; CvpRequestError
(and every other error kind) is not caught and propagates.  On success
the body is decoded against the full URL of the winning node. -/
def make_request_go (env : Env) (req_type url : String) :
    Nat → St → Except CvpError (Option Json) × St
  | 0, st => (.ok none, st)
  | remaining + 1, st =>
    let full_url := computeFullUrl st url
    match send_request env st req_type full_url with
    | (.ok none, st1) => (.ok none, st1)
    | (.ok (some resp), st1) =>
      match handle_response full_url resp.text with
      | .ok v => (.ok (some v), st1)
      | .error e => (.error e, st1)
    | (.error e, st1) =>
      match e with
      | .apiError m =>
        if !(strIn "Unauthorized" m || strIn "User is unauthorized" m) then
          (.error e, st1)
        else if remaining == 0 then (.error e, st1)
        else
          let st2 := create_session env st1 false
          if st2.session.isNone then (.error e, st2)
          else make_request_go env req_type url remaining st2
      | .connError _ | .httpError _ | .tooManyRedirects _ | .timeoutErr _
      | .sessionLogOut _ =>
        if remaining == 0 then (.error e, st1)
        else
          let st2 := create_session env st1 false
          if st2.session.isNone then (.error e, st2)
          else make_request_go env req_type url remaining st2
      | _ => (.error e, st1)

/-- CvpClient._make_request (also the whole effect of `get`, `post` and
`delete`, which merely forward to it): fail fast with ValueError when no
session is live, record the node handling the request, then run the node
loop. -/
def make_request (env : Env) (st : St) (req_type url : String) :
    Except CvpError (Option Json) × St :=
  match st.session with
  | none => (.error (.valueError "No valid session to CVP node"), st)
  | some _ =>
    let st1 : St := { st with last_used_node := st.current_host }
    make_request_go env req_type url st.node_cnt st1

/-- Newest known api version (CvpClient.LATEST_API_VERSION; the source's
float n.0 values are represented by the integer n throughout). -/
def LATEST_API_VERSION : Nat := 8

/-- Comparison `parse_version(a) >= parse_version(b)` restricted to purely
numeric dotted versions, which is all the source ever compares: release
component lists compare lexicographically with the shorter side padded by
zeros. -/
def verGE : List Nat → List Nat → Bool
  | _, [] => true
  | [], b :: bs => b == 0 && verGE [] bs
  | a :: as, b :: bs => a > b || (a == b && verGE as bs)

/-- CvpClient.set_version restricted to the apiversion computation, over
the numeric dot-components of the reported version string: CVaaS always
selects the latest api version; otherwise a version with fewer than three
components gets one "0" component appended, and the padded version is
compared against the thresholds from newest to oldest, defaulting to 1. -/
def set_version_api (cvaas : Bool) (version_components : List Nat) : Nat :=
  if cvaas then LATEST_API_VERSION
  else
    let vc := if version_components.length < 3 then version_components ++ [0]
              else version_components
    if verGE vc [2022, 1, 0] then 8
    else if verGE vc [2021, 3, 0] then 7
    else if verGE vc [2021, 2, 0] then 6
    else if verGE vc [2020, 2, 4] then 5
    else if verGE vc [2020, 1, 1] then 4
    else if verGE vc [2019, 0, 0] then 3
    else if verGE vc [2018, 2, 0] then 2
    else 1

/-- Message of the unauthorized classification, mirroring the two
branches of `_is_good_response` for a non-OK response that carries an
unauthorized marker. -/
def unauthMsg (resp : Resp) (pfx : String) : String :=
  if strIn "Unauthorized" resp.reason then pfx ++ (": Request Error: " ++ resp.reason)
  else pfx ++ ": Request Error: User is unauthorized"

/-- Error text accumulated by `_create_session` when every login fails:
one '<host>: <reason>\n' line per visited node, with `idx` the pool
cursor and `li` the login-call counter at entry. -/
def loginFailLog (nodes : List String) (cnt : Nat) (ef : Nat → CvpError) :
    Nat → Nat → Nat → String
  | _, _, 0 => ""
  | idx, li, n + 1 =>
    ((nodes.getD (idx % cnt) "") ++ (": " ++ (errMsg (ef li) ++ "\n"))) ++
      loginFailLog nodes cnt ef (idx + 1) (li + 1) n

/-- Environment in which every transport call yields the same response
and every login succeeds. -/
def envOf (r : Resp) : Env :=
  { transport := fun _ => .gotResp r, login := fun _ => none }

/-- Connected single-node client state used by the concrete runs. -/
def stOne : St :=
  { session := some 1, session_gen := 1, nodes := ["cvp1"], node_cnt := 1,
    pool_idx := 1, url_pref := "https://cvp1:443/web",
    url_pref_short := "https://cvp1:443", current_host := "cvp1",
    last_used_node := "", error_msg := "\n", is_cvaas := false, port := none,
    tcnt := 0, lcnt := 0 }

/-- Connected two-node client state used by the concrete failover runs. -/
def stTwo : St :=
  { session := some 1, session_gen := 1, nodes := ["cvp1", "cvp2"], node_cnt := 2,
    pool_idx := 1, url_pref := "https://cvp1:443/web",
    url_pref_short := "https://cvp1:443", current_host := "cvp1",
    last_used_node := "", error_msg := "\n", is_cvaas := false, port := none,
    tcnt := 0, lcnt := 0 }

/-- Environment answering every transport call with a timeout. -/
def envTimeout : Env :=
  { transport := fun _ => .timeoutFail "timed out", login := fun _ => none }

/-- Unauthorized response and the environments used by the concrete
unauthorized-retry runs. -/
def respUnauth : Resp := { ok := false, reason := "401 Unauthorized", text := "x" }

/-- Environment always answering `respUnauth`, logins succeeding. -/
def envUnauthA : Env := envOf respUnauth

/-- Environment always answering `respUnauth`, logins failing. -/
def envUnauthB : Env :=
  { transport := fun _ => .gotResp respUnauth, login := fun _ => some (.connError "down") }

/-- Environment answering every transport call with a connection error
carrying the call index, logins succeeding. -/
def envConnFail : Env :=
  { transport := fun n => .connFail (if n == 0 then "refused-0" else "refused-1"),
    login := fun _ => none }

/-- Environment in which every login fails. -/
def envLoginFail : Env :=
  { transport := fun _ => .connFail "unused", login := fun _ => some (.connError "down") }

/-- Success classification of an OK response with empty body does not
depend on the reason text or the prefix. -/
theorem igr_ok_empty (rsn pfx : String) :
    is_good_response (Resp.mk true rsn "") pfx = none := rfl

/-- Success classification of an OK response with literal "null" body. -/
theorem igr_ok_null (rsn pfx : String) :
    is_good_response (Resp.mk true rsn "null") pfx = none := rfl

/-- The classifier never produces a ValueError. -/
theorem igr_no_valueError (r : Resp) (pfx m : String) :
    is_good_response r pfx ≠ some (.valueError m) := by
  unfold is_good_response
  dsimp only
  split
  · split
    · simp
    · split <;> simp
  · split
    · simp
    · split
      · split <;> simp
      · simp

/-- The decode stage never produces a ValueError. -/
theorem hr_no_valueError (fu text m : String) :
    handle_response fu text ≠ .error (.valueError m) := by
  unfold handle_response
  split
  · simp
  · split
    · split <;> simp
    · simp
    · simp

/-- The same-node retry loop never produces a ValueError. -/
theorem srg_no_valueError (env : Env) (rt fu : String) :
    ∀ n st m, (send_request_go env rt fu n st).1 ≠ .error (.valueError m) := by
  intro n
  induction n with
  | zero => intro st m; simp [send_request_go]
  | succ k ih =>
    intro st m
    simp only [send_request_go]
    cases henv : env.transport st.tcnt <;> simp only []
    · simp
    · simp
    · simp
    · split
      · simp
      · exact ih _ _
    case gotResp resp =>
      cases hg : is_good_response resp (mkPfx rt fu) with
      | none => simp
      | some e =>
        cases e
        case apiError m2 =>
          simp only []
          split
          · split
            · simp
            · split
              · simp
              · exact ih _ _
          · simp
        case sessionLogOut m2 =>
          simp only []
          split
          · simp
          · split
            · simp
            · exact ih _ _
        case valueError m2 =>
          exact fun _ => igr_no_valueError resp (mkPfx rt fu) m2 hg
        all_goals simp

/-- The node loop never produces a ValueError. -/
theorem mrg_no_valueError (env : Env) (rt url : String) :
    ∀ n st m, (make_request_go env rt url n st).1 ≠ .error (.valueError m) := by
  intro n
  induction n with
  | zero => intro st m; simp [make_request_go]
  | succ k ih =>
    intro st m
    simp only [make_request_go]
    cases hs : send_request env st rt (computeFullUrl st url) with
    | mk res st1 =>
      cases res with
      | ok o =>
        cases o with
        | none => simp
        | some resp =>
          simp only []
          cases hh : handle_response (computeFullUrl st url) resp.text with
          | ok v => simp
          | error e =>
            intro hc
            simp only [] at hc
            injection hc with hc2
            exact hr_no_valueError _ _ _ (by rw [hh, hc2])
      | error e =>
        cases e
        case apiError m2 =>
          simp only []
          split
          · simp
          · split
            · simp
            · split
              · simp
              · exact ih _ _
        case valueError m2 =>
          intro _
          exact srg_no_valueError env rt (computeFullUrl st url) NUM_RETRY_REQUESTS st m2
            (by rw [show send_request env st rt (computeFullUrl st url) =
                      send_request_go env rt (computeFullUrl st url) NUM_RETRY_REQUESTS st
                    from rfl] at hs
                rw [hs])
        case connError m2 =>
          simp only []
          split
          · simp
          · split
            · simp
            · exact ih _ _
        case httpError m2 =>
          simp only []
          split
          · simp
          · split
            · simp
            · exact ih _ _
        case tooManyRedirects m2 =>
          simp only []
          split
          · simp
          · split
            · simp
            · exact ih _ _
        case timeoutErr m2 =>
          simp only []
          split
          · simp
          · split
            · simp
            · exact ih _ _
        case sessionLogOut m2 =>
          simp only []
          split
          · simp
          · split
            · simp
            · exact ih _ _
        all_goals simp

/-- When every login fails, the `_create_session` loop accumulates one
'<host>: <reason>' line per visited node and ends with no session. -/
theorem csg_all_fail (env : Env) (ef : Nat → CvpError)
    (hlog : ∀ i, env.login i = some (ef i)) :
    ∀ n st, (create_session_go env n st).error_msg =
        st.error_msg ++ loginFailLog st.nodes st.node_cnt ef st.pool_idx st.lcnt n ∧
      (create_session_go env n st).session = (if n = 0 then st.session else none) := by
  intro n
  induction n with
  | zero => intro st; simp [create_session_go, loginFailLog]
  | succ k ih =>
    intro st
    simp only [create_session_go, reset_session, hlog, loginFailLog]
    constructor
    · rw [(ih _).1]
      simp [String.append_assoc]
    · rw [(ih _).2]
      split <;> simp

/-- When no node accepts the login, `connect` raises CvpLoginError with
the per-node aggregate. -/
theorem connect_all_fail (env : Env) (nodes : List String) (port : Option Nat)
    (cv : Bool) (ef : Nat → CvpError) (hlog : ∀ i, env.login i = some (ef i)) :
    connect env nodes port cv =
      .error (.loginError ("\n" ++ loginFailLog nodes nodes.length ef 0 0 nodes.length)) := by
  have h := csg_all_fail env ef hlog nodes.length
    { session := none, session_gen := 0, nodes := nodes, node_cnt := nodes.length,
      pool_idx := 0, url_pref := "", url_pref_short := "", current_host := "",
      last_used_node := "", error_msg := "\n", is_cvaas := cv, port := port,
      tcnt := 0, lcnt := 0 }
  rcases h with ⟨h1, h2⟩
  simp only at h1 h2
  unfold connect create_session
  simp only []
  rw [show (if (!true && decide ((nodes.length : Nat) > 1)) = true
        then nodes.length - 1 else nodes.length) = nodes.length by simp]
  simp [h1, h2]

/-- When every transport call fails with a connection error (a category
retried only by failover) and re-login always succeeds, the node loop
consumes one transport call per remaining node and surfaces the error of
the last call. -/
theorem mrg_last_error (env : Env) (rt url : String) (msgf : Nat → String)
    (htr : ∀ n, env.transport n = .connFail (msgf n))
    (hlog : ∀ n, env.login n = none) :
    ∀ r st, r < st.node_cnt →
      (make_request_go env rt url (r + 1) st).1 =
        .error (.connError (msgf (st.tcnt + r))) := by
  intro r
  induction r with
  | zero =>
    intro st h
    simp [make_request_go, send_request, NUM_RETRY_REQUESTS, send_request_go, htr]
  | succ k ih =>
    intro st h
    have hgt : st.node_cnt > 1 := by omega
    have hk : k < st.node_cnt := by omega
    have hd : decide (st.node_cnt > 1) = true := decide_eq_true hgt
    obtain ⟨j, hj⟩ : ∃ j, st.node_cnt - 1 = j + 1 := ⟨st.node_cnt - 2, by omega⟩
    have harith : st.tcnt + (k + 1) = st.tcnt + 1 + k := by omega
    rw [make_request_go]
    simp only [send_request, NUM_RETRY_REQUESTS, send_request_go, htr,
               create_session, hd, hj, create_session_go, reset_session, hlog,
               harith]
    simp [ih, hk]

/-- C1 (counterexample): the claim is false on the code in both halves.
A body of two consecutive JSON objects with no separator does not decode
to \x7bdata: [\x7b"a":1\x7d, \x7b"b":2\x7d]\x7d: the fallback decoder
advances one character past each decoded value (the `position += 1` in
`json_decoder`), so with no separator it skips the second object's
opening brace and collects [\x7b"a":1\x7d, "b", 2].  And a body that is
exactly one JSON object is not always returned unwrapped: on a
/resources/ URL an object carrying a 'result' key is wrapped as
\x7bdata: [object]\x7d. -/
theorem c1_streaming_decode_cex :
    ((make_request (envOf (Resp.mk true "OK" "\x7b\"a\":1\x7d\x7b\"b\":2\x7d"))
        stOne "GET" "/x").1 =
      .ok (some (.obj [("data",
        .arr [.obj [("a", .num 1)], .str "b", .num 2])]))) ∧
    ((make_request (envOf (Resp.mk true "OK" "\x7b\"a\":1\x7d\x7b\"b\":2\x7d"))
        stOne "GET" "/x").1 ≠
      .ok (some (.obj [("data",
        .arr [.obj [("a", .num 1)], .obj [("b", .num 2)]])]))) ∧
    ((make_request (envOf (Resp.mk true "OK" "\x7b\"result\":\x7b\"value\":5\x7d\x7d"))
        stOne "GET" "/api/resources/x").1 =
      .ok (some (.obj [("data",
        .arr [.obj [("result", .obj [("value", .num 5)])]])]))) ∧
    ((make_request (envOf (Resp.mk true "OK" "\x7b\"result\":\x7b\"value\":5\x7d\x7d"))
        stOne "GET" "/api/resources/x").1 ≠
      .ok (some (.obj [("result", .obj [("value", .num 5)])]))) := by
  refine ⟨rfl, ?_, rfl, ?_⟩
  · intro h
    rw [show (make_request (envOf (Resp.mk true "OK" "\x7b\"a\":1\x7d\x7b\"b\":2\x7d"))
          stOne "GET" "/x").1 =
        .ok (some (.obj [("data",
          .arr [.obj [("a", .num 1)], .str "b", .num 2])])) from rfl] at h
    simp at h
  · intro h
    rw [show (make_request (envOf (Resp.mk true "OK" "\x7b\"result\":\x7b\"value\":5\x7d\x7d"))
          stOne "GET" "/api/resources/x").1 =
        .ok (some (.obj [("data",
          .arr [.obj [("result", .obj [("value", .num 5)])]])])) from rfl] at h
    simp at h

/-- C1 (amended): with a one-character separator between the two objects
(the newline the streaming endpoints emit) the decode is
\x7bdata: [\x7b"a":1\x7d, \x7b"b":2\x7d]\x7d; with no separator the
decoder misaligns after the first object and yields
\x7bdata: [\x7b"a":1\x7d, "b", 2]\x7d; a single-JSON-object body is
returned unwrapped except on a /resources/ URL when the object carries a
'result' key, where it is wrapped as \x7bdata: [object]\x7d. -/
theorem c1_streaming_decode_amended :
    ((make_request (envOf (Resp.mk true "OK" "\x7b\"a\":1\x7d\n\x7b\"b\":2\x7d"))
        stOne "GET" "/x").1 =
      .ok (some (.obj [("data",
        .arr [.obj [("a", .num 1)], .obj [("b", .num 2)]])]))) ∧
    ((make_request (envOf (Resp.mk true "OK" "\x7b\"a\":1\x7d\x7b\"b\":2\x7d"))
        stOne "GET" "/x").1 =
      .ok (some (.obj [("data",
        .arr [.obj [("a", .num 1)], .str "b", .num 2])]))) ∧
    ((make_request (envOf (Resp.mk true "OK" "\x7b\"a\":1\x7d"))
        stOne "GET" "/x").1 =
      .ok (some (.obj [("a", .num 1)]))) ∧
    ((make_request (envOf (Resp.mk true "OK" "\x7b\"result\":\x7b\"value\":5\x7d\x7d"))
        stOne "GET" "/api/resources/x").1 =
      .ok (some (.obj [("data",
        .arr [.obj [("result", .obj [("value", .num 5)])]])]))) :=
  ⟨rfl, rfl, rfl, rfl⟩

/-- C2: against a node that answers every attempt with a timeout,
`_send_request` makes exactly NUM_RETRY_REQUESTS = 3 transport attempts
(the final transport counter is exactly three higher) and then raises the
timeout error of the third attempt; the returned state shows no login
call and no other mutation, so no failover happens inside the same-node
loop and none before the third attempt. -/
theorem c2_timeout_retry_ceiling (env : Env) (st : St) (rt fu : String)
    (msgf : Nat → String) (h : ∀ n, env.transport n = .timeoutFail (msgf n)) :
    send_request env st rt fu =
      (.error (.timeoutErr (msgf (st.tcnt + 2))), { st with tcnt := st.tcnt + 3 }) := by
  simp [send_request, NUM_RETRY_REQUESTS, send_request_go, h, St.mk.injEq]

/-- C2 witness: concrete all-timeout environment. -/
theorem c2_timeout_retry_ceiling_witness :
    send_request envTimeout stOne "GET" "/u" =
      (.error (.timeoutErr "timed out"), { stOne with tcnt := 3 }) :=
  c2_timeout_retry_ceiling envTimeout stOne "GET" "/u" (fun _ => "timed out")
    (fun _ => rfl)

/-- C6: version-to-apiversion mapping of `set_version`.  CVaaS always
selects the newest api version (8) whatever the reported version; on-prem
versions map per the threshold table, a two-component version is padded
with a trailing 0 before comparison, and versions below every threshold
default to 1. -/
theorem c6_version_mapping :
    (∀ vc : List Nat, set_version_api true vc = 8) ∧
    set_version_api false [2018, 1, 9] = 1 ∧
    set_version_api false [2018, 2, 0] = 2 ∧
    set_version_api false [2019, 0, 0] = 3 ∧
    set_version_api false [2020, 1, 1] = 4 ∧
    set_version_api false [2020, 2, 4] = 5 ∧
    set_version_api false [2021, 2, 0] = 6 ∧
    set_version_api false [2021, 3, 0] = 7 ∧
    set_version_api false [2022, 1, 0] = 8 ∧
    set_version_api false [2018, 2] = 2 ∧
    set_version_api false [2017, 6] = 1 := by
  refine ⟨fun vc => rfl, ?_, ?_, ?_, ?_, ?_, ?_, ?_, ?_, ?_, ?_⟩ <;> rfl

/-- C7: on any path and method, in any connected state, an OK response
whose body is empty or the literal "null" makes `_make_request` return
\x7bdata: []\x7d; the decode is a pure function of the response, so the
result cannot depend on prior decode calls or other client state. -/
theorem c7_empty_null_body (env : Env) (st : St) (rt url rsn text : String)
    (k g : Nat) (hsess : st.session = some g) (hcnt : st.node_cnt = k + 1)
    (hbody : text = "" ∨ text = "null")
    (htr : env.transport st.tcnt = .gotResp (Resp.mk true rsn text)) :
    (make_request env st rt url).1 = .ok (some (.obj [("data", .arr [])])) := by
  rcases hbody with hb | hb <;> subst hb <;>
    simp [make_request, hsess, hcnt, make_request_go, send_request,
          NUM_RETRY_REQUESTS, send_request_go, htr, igr_ok_empty, igr_ok_null,
          handle_response]

/-- C7 witness: concrete empty-body and "null"-body runs. -/
theorem c7_empty_null_body_witness :
    (make_request (envOf (Resp.mk true "OK" "")) stOne "GET" "/x").1 =
      .ok (some (.obj [("data", .arr [])])) ∧
    (make_request (envOf (Resp.mk true "OK" "null")) stOne "POST" "/y").1 =
      .ok (some (.obj [("data", .arr [])])) :=
  ⟨c7_empty_null_body (envOf (Resp.mk true "OK" "")) stOne "GET" "/x" "OK" ""
      0 1 rfl rfl (Or.inl rfl) rfl,
   c7_empty_null_body (envOf (Resp.mk true "OK" "null")) stOne "POST" "/y" "OK" "null"
      0 1 rfl rfl (Or.inr rfl) rfl⟩

/-- C9: `_reset_session` re-authenticates in place.  It leaves the node
list, node count, pool cursor and both url prefixes untouched (never
advancing rotation), returns exactly the login failure, always takes a
fresh transport handle (the session generation increases), and ends with
the fresh session on success and no session on failure. -/
theorem c9_reset_session_frame (env : Env) (st : St) :
    (reset_session env st).2.nodes = st.nodes ∧
    (reset_session env st).2.node_cnt = st.node_cnt ∧
    (reset_session env st).2.pool_idx = st.pool_idx ∧
    (reset_session env st).2.url_pref = st.url_pref ∧
    (reset_session env st).2.url_pref_short = st.url_pref_short ∧
    (reset_session env st).1 = env.login st.lcnt ∧
    (reset_session env st).2.session_gen = st.session_gen + 1 ∧
    (match env.login st.lcnt with
     | none => (reset_session env st).2.session = some (st.session_gen + 1)
     | some _ => (reset_session env st).2.session = none) := by
  unfold reset_session
  cases h : env.login st.lcnt <;> simp [h]

/-- C10: `get`, `post` and `delete` all reduce to `_make_request`, which
raises ValueError 'No valid session to CVP node' exactly when no session
is live at entry; in that case it returns with the state untouched (the
check precedes the last-used-node bookkeeping, URL computation and any
transport or login call), and no other code path produces this
ValueError. -/
theorem c10_no_session_valueerror (env : Env) (st : St) (rt url : String) :
    ((make_request env st rt url).1 =
        .error (.valueError "No valid session to CVP node") ↔ st.session = none) ∧
    (match st.session with
     | none => make_request env st rt url =
         (.error (.valueError "No valid session to CVP node"), st)
     | some _ => True) := by
  cases hs : st.session with
  | none => simp [make_request, hs]
  | some g =>
    refine ⟨⟨fun h => absurd h ?_, fun h => Option.noConfusion h⟩, trivial⟩
    simp only [make_request, hs]
    exact mrg_no_valueError env rt url _ _ _

/-- C3: a response classified unauthorized (non-OK status whose reason
carries 'Unauthorized', or whose body carries 'User is unauthorized')
makes `_send_request` reset the session and retry the same node while
same-node attempts remain: with logins succeeding the request is retried
until the 3-attempt budget is exhausted (3 transport calls, 2 resets) and
only then is the error propagated; when the reset fails to produce a
session the error is propagated at once with the session cleared. -/
theorem c3_unauthorized_retry (env : Env) (st : St) (rt fu : String) (resp : Resp)
    (hok : resp.ok = false)
    (hmark : strIn "Unauthorized" resp.reason = true ∨
             strIn "User is unauthorized" resp.text = true)
    (htr : ∀ n, env.transport n = .gotResp resp) :
    is_good_response resp (mkPfx rt fu) =
      some (.apiError (unauthMsg resp (mkPfx rt fu))) ∧
    ((∀ n, env.login n = none) →
      send_request env st rt fu =
        (.error (.apiError (unauthMsg resp (mkPfx rt fu))),
         { st with tcnt := st.tcnt + 3, lcnt := st.lcnt + 2,
                   session := some (st.session_gen + 2),
                   session_gen := st.session_gen + 2 })) ∧
    (∀ e, env.login st.lcnt = some e →
      send_request env st rt fu =
        (.error (.apiError (unauthMsg resp (mkPfx rt fu))),
         { st with tcnt := st.tcnt + 1, lcnt := st.lcnt + 1,
                   session := none, session_gen := st.session_gen + 1 })) := by
  have hg : is_good_response resp (mkPfx rt fu) =
      some (.apiError (unauthMsg resp (mkPfx rt fu))) := by
    unfold is_good_response unauthMsg
    rcases hmark with hm | hm
    · simp [hok, hm]
    · cases hr : strIn "Unauthorized" resp.reason
      · simp [hok, hr, hm]
      · simp [hok, hr]
  have hcheck : (strIn "Unauthorized" (unauthMsg resp (mkPfx rt fu)) ||
      strIn "User is unauthorized" (unauthMsg resp (mkPfx rt fu))) = true := by
    unfold unauthMsg
    cases hr : strIn "Unauthorized" resp.reason
    · have h2 : strIn "User is unauthorized"
          (mkPfx rt fu ++ ": Request Error: User is unauthorized") = true :=
        strIn_append _ _ _ (by decide)
      simp [h2]
    · have h2 : strIn "Unauthorized"
          (mkPfx rt fu ++ (": Request Error: " ++ resp.reason)) = true :=
        strIn_append _ _ _ (strIn_append _ _ _ hr)
      simp [h2]
  refine ⟨hg, fun hlog => ?_, fun e he => ?_⟩
  · simp [send_request, NUM_RETRY_REQUESTS, send_request_go, htr, hg, hcheck,
          reset_session, hlog, St.mk.injEq]
  · simp [send_request, NUM_RETRY_REQUESTS, send_request_go, htr, hg, hcheck,
          reset_session, he, St.mk.injEq]

/-- C3 witness: a 401-Unauthorized response retried with successful
re-logins until the budget is exhausted, and propagated at once when the
reset cannot produce a session. -/
theorem c3_unauthorized_retry_witness :
    send_request envUnauthA stOne "GET" "/u" =
      (.error (.apiError (unauthMsg respUnauth (mkPfx "GET" "/u"))),
       { stOne with tcnt := 3, lcnt := 2, session := some 3, session_gen := 3 }) ∧
    send_request envUnauthB stOne "GET" "/u" =
      (.error (.apiError (unauthMsg respUnauth (mkPfx "GET" "/u"))),
       { stOne with tcnt := 1, lcnt := 1, session := none, session_gen := 2 }) :=
  ⟨(c3_unauthorized_retry envUnauthA stOne "GET" "/u" respUnauth rfl
      (Or.inl (by decide)) (fun _ => rfl)).2.1 (fun _ => rfl),
   (c3_unauthorized_retry envUnauthB stOne "GET" "/u" respUnauth rfl
      (Or.inl (by decide)) (fun _ => rfl)).2.2 (.connError "down") rfl⟩

/-- C4: a response classified as an API rejection whose message carries
no unauthorized marker, or as a malformed request (CvpRequestError), is
propagated by `_make_request` immediately: the returned state shows
exactly one transport call, no login call, and an unchanged pool cursor,
so no same-node retry and no failover happen, whatever the node count. -/
theorem c4_api_rejection_immediate (env : Env) (st : St) (rt url m : String)
    (k g : Nat) (resp : Resp)
    (hsess : st.session = some g) (hcnt : st.node_cnt = k + 1)
    (htr : env.transport st.tcnt = .gotResp resp) :
    (is_good_response resp (mkPfx rt (computeFullUrl st url)) = some (.apiError m) →
      strIn "Unauthorized" m = false → strIn "User is unauthorized" m = false →
      make_request env st rt url =
        (.error (.apiError m),
         { st with last_used_node := st.current_host, tcnt := st.tcnt + 1 })) ∧
    (is_good_response resp (mkPfx rt (computeFullUrl st url)) = some (.requestError m) →
      make_request env st rt url =
        (.error (.requestError m),
         { st with last_used_node := st.current_host, tcnt := st.tcnt + 1 })) := by
  obtain ⟨sess, sgen, nds, ncnt, pidx, up, ups, ch, lun, em, cv, prt, tc, lc⟩ := st
  simp only at hsess hcnt htr ⊢
  subst hsess hcnt
  constructor
  · intro hg hm1 hm2
    simp only [computeFullUrl, mkPfx, Bool.or_eq_true] at hg
    simp [make_request, make_request_go, send_request, NUM_RETRY_REQUESTS,
          send_request_go, htr, hg, hm1, hm2, computeFullUrl, mkPfx, St.mk.injEq]
  · intro hg
    simp only [computeFullUrl, mkPfx, Bool.or_eq_true] at hg
    simp [make_request, make_request_go, send_request, NUM_RETRY_REQUESTS,
          send_request_go, htr, hg, computeFullUrl, mkPfx, St.mk.injEq]

/-- Error-coded JSON response used by the C4 witness. -/
def respApiErr : Resp :=
  { ok := true, reason := "OK",
    text := "\x7b\"errorCode\": 112498, \"errorMessage\": \"bad\"\x7d" }

/-- Malformed-request response used by the C4 witness. -/
def respBadReq : Resp := { ok := false, reason := "404 Not Found", text := "nope" }

/-- C4 witness: an error-coded body and a plain 404 are both propagated
after a single transport call. -/
theorem c4_api_rejection_immediate_witness :
    make_request (envOf respApiErr) stOne "GET" "/x" =
      (.error (.apiError "GET: https://cvp1:443/web/x : Request Error: bad"),
       { stOne with last_used_node := "cvp1", tcnt := 1 }) ∧
    make_request (envOf respBadReq) stOne "GET" "/x" =
      (.error (.requestError
         "GET: https://cvp1:443/web/x : Request Error: 404 Not Found - nope"),
       { stOne with last_used_node := "cvp1", tcnt := 1 }) :=
  ⟨(c4_api_rejection_immediate (envOf respApiErr) stOne "GET" "/x"
      "GET: https://cvp1:443/web/x : Request Error: bad" 0 1 respApiErr
      rfl rfl rfl).1 rfl rfl rfl,
   (c4_api_rejection_immediate (envOf respBadReq) stOne "GET" "/x"
      "GET: https://cvp1:443/web/x : Request Error: 404 Not Found - nope" 0 1
      respBadReq rfl rfl rfl).2 rfl⟩

/-- C5: when a retryable error (here a connection failure, which is
retried only across nodes) persists across all node_cnt node-level
attempts, `_make_request` raises the error of the last attempt, not an
aggregate; whereas when no node accepts the login, `connect` raises
CvpLoginError carrying the accumulated '<node>: <reason>' lines of every
node. -/
theorem c5_last_error_and_connect_aggregate :
    (∀ (env : Env) (st : St) (rt url : String) (msgf : Nat → String) (k g : Nat),
      st.session = some g → st.node_cnt = k + 1 →
      (∀ n, env.transport n = .connFail (msgf n)) →
      (∀ n, env.login n = none) →
      (make_request env st rt url).1 = .error (.connError (msgf (st.tcnt + k)))) ∧
    (∀ (env : Env) (nodes : List String) (port : Option Nat) (cv : Bool)
      (ef : Nat → CvpError),
      (∀ i, env.login i = some (ef i)) →
      connect env nodes port cv =
        .error (.loginError
          ("\n" ++ loginFailLog nodes nodes.length ef 0 0 nodes.length))) := by
  constructor
  · intro env st rt url msgf k g hs hc htr hlog
    simp only [make_request, hs]
    rw [hc]
    exact mrg_last_error env rt url msgf htr hlog k _ (by simp [hc])
  · intro env nodes port cv ef hlog
    exact connect_all_fail env nodes port cv ef hlog

/-- C5 witness: two nodes failing with connection errors surface the
second (last) error; two nodes rejecting login surface the aggregate. -/
theorem c5_last_error_and_connect_aggregate_witness :
    (make_request envConnFail stTwo "GET" "/u").1 =
      .error (.connError "refused-1") ∧
    connect envLoginFail ["cvp1", "cvp2"] none false =
      .error (.loginError
        ("\n" ++ loginFailLog ["cvp1", "cvp2"] 2 (fun _ => .connError "down") 0 0 2)) ∧
    ("\n" ++ loginFailLog ["cvp1", "cvp2"] 2 (fun _ => .connError "down") 0 0 2) =
      "\ncvp1: down\ncvp2: down\n" :=
  ⟨c5_last_error_and_connect_aggregate.1 envConnFail stTwo "GET" "/u"
      (fun n => if n == 0 then "refused-0" else "refused-1") 1 1 rfl rfl
      (fun _ => rfl) (fun _ => rfl),
   c5_last_error_and_connect_aggregate.2 envLoginFail ["cvp1", "cvp2"] none false
      (fun _ => .connError "down") (fun _ => rfl),
   rfl⟩

/-- C8 (counterexample): in the fallback decode path, when exactly one
JSON value is collected the result handed to the caller is not that value
unwrapped: `json_decoder` does unwrap its list, but `_make_request` still
wraps the result under a 'data' key, returning
\x7bdata: \x7b"a":1\x7d\x7d for body '\x7b"a":1\x7dx' rather than
\x7b"a":1\x7d. -/
theorem c8_fallback_decode_cex :
    ((make_request (envOf (Resp.mk true "OK" "\x7b\"a\":1\x7dx"))
        stOne "GET" "/x").1 =
      .ok (some (.obj [("data", .obj [("a", .num 1)])]))) ∧
    ((make_request (envOf (Resp.mk true "OK" "\x7b\"a\":1\x7dx"))
        stOne "GET" "/x").1 ≠
      .ok (some (.obj [("a", .num 1)]))) := by
  refine ⟨rfl, ?_⟩
  intro h
  rw [show (make_request (envOf (Resp.mk true "OK" "\x7b\"a\":1\x7dx"))
        stOne "GET" "/x").1 =
      .ok (some (.obj [("data", .obj [("a", .num 1)])])) from rfl] at h
  simp at h

/-- C8 (amended): the fallback path is entered only on an 'Extra data'
parse failure and returns \x7bdata: d\x7d where d is `json_decoder`'s
result — the collected values with a single collected value unwrapped
from the list (but still under the 'data' key); any parse failure other
than 'Extra data' is re-raised to the caller unchanged. -/
theorem c8_fallback_decode_amended (env : Env) (st : St) (rt url rsn text : String)
    (k g : Nat) (hsess : st.session = some g) (hcnt : st.node_cnt = k + 1)
    (htr : env.transport st.tcnt = .gotResp (Resp.mk true rsn text))
    (hgood : is_good_response (Resp.mk true rsn text)
        (mkPfx rt (computeFullUrl st url)) = none) :
    (loads text = .extraData →
      (make_request env st rt url).1 =
        .ok (some (.obj [("data", json_decoder text)]))) ∧
    (∀ m, loads text = .failure m → text ≠ "" →
      (make_request env st rt url).1 = .error (.jsonError m)) ∧
    (∀ v, decodedList text = [v] → json_decoder text = v) ∧
    ((decodedList text).length ≠ 1 → json_decoder text = .arr (decodedList text)) := by
  obtain ⟨sess, sgen, nds, ncnt, pidx, up, ups, ch, lun, em, cv, prt, tc, lc⟩ := st
  simp only at hsess hcnt htr hgood ⊢
  subst hsess hcnt
  simp only [computeFullUrl, mkPfx, Bool.or_eq_true] at hgood
  refine ⟨fun hload => ?_, fun m hload hne => ?_, fun v hv => ?_, fun hlen => ?_⟩
  · have h1 : (text == "") = false := by
      cases hbe : text == ""
      · rfl
      · have he : text = "" := by simpa using hbe
        subst he
        rw [show loads "" = LoadResult.failure "Expecting value" from rfl] at hload
        simp at hload
    have h2 : (text == "null") = false := by
      cases hbe : text == "null"
      · rfl
      · have he : text = "null" := by simpa using hbe
        subst he
        rw [show loads "null" = LoadResult.ok Json.null from rfl] at hload
        simp at hload
    simp [make_request, make_request_go, send_request, NUM_RETRY_REQUESTS,
          send_request_go, htr, hgood, handle_response, h1, h2, hload,
          computeFullUrl, mkPfx]
  · have h1 : (text == "") = false := by
      cases hbe : text == ""
      · rfl
      · exact absurd (by simpa using hbe) hne
    have h2 : (text == "null") = false := by
      cases hbe : text == "null"
      · rfl
      · have he : text = "null" := by simpa using hbe
        subst he
        rw [show loads "null" = LoadResult.ok Json.null from rfl] at hload
        simp at hload
    simp [make_request, make_request_go, send_request, NUM_RETRY_REQUESTS,
          send_request_go, htr, hgood, handle_response, h1, h2, hload,
          computeFullUrl, mkPfx]
  · simp [json_decoder, hv]
  · unfold json_decoder
    cases hdl : decodedList text with
    | nil => simp
    | cons x xs =>
      cases xs with
      | nil => rw [hdl] at hlen; simp at hlen
      | cons y ys => simp

/-- C8 witness: a one-value 'Extra data' body is returned as
\x7bdata: value\x7d with `json_decoder` unwrapping the singleton list,
and a body failing with a non-'Extra data' error is re-raised. -/
theorem c8_fallback_decode_witness :
    (make_request (envOf (Resp.mk true "OK" "\x7b\"a\":1\x7dx"))
        stOne "GET" "/x").1 =
      .ok (some (.obj [("data", json_decoder "\x7b\"a\":1\x7dx")])) ∧
    json_decoder "\x7b\"a\":1\x7dx" = .obj [("a", .num 1)] ∧
    (make_request (envOf (Resp.mk true "OK" "xq")) stOne "GET" "/x").1 =
      .error (.jsonError "Expecting value") ∧
    json_decoder "xq" = .arr (decodedList "xq") :=
  ⟨(c8_fallback_decode_amended (envOf (Resp.mk true "OK" "\x7b\"a\":1\x7dx"))
      stOne "GET" "/x" "OK" "\x7b\"a\":1\x7dx" 0 1 rfl rfl rfl rfl).1 rfl,
   (c8_fallback_decode_amended (envOf (Resp.mk true "OK" "\x7b\"a\":1\x7dx"))
      stOne "GET" "/x" "OK" "\x7b\"a\":1\x7dx" 0 1 rfl rfl rfl rfl).2.2.1
      (.obj [("a", .num 1)]) rfl,
   (c8_fallback_decode_amended (envOf (Resp.mk true "OK" "xq"))
      stOne "GET" "/x" "OK" "xq" 0 1 rfl rfl rfl rfl).2.1
      "Expecting value" rfl (by decide),
   (c8_fallback_decode_amended (envOf (Resp.mk true "OK" "xq"))
      stOne "GET" "/x" "OK" "xq" 0 1 rfl rfl rfl rfl).2.2.2 (by decide)⟩
